import Mathlib

set_option autoImplicit false

namespace Minecraft

/-! Shallow embedding of `minecraft.py`, the PrismLauncher instance selector.

The program is modelled as pure functions over an explicit environment
(`Env`) describing the filesystem, the subprocess runner, and standard
input.  Printing is modelled by returning the list of strings passed to
`print`; process spawning by returning the argv list; Python exceptions
by explicit error values (`PyError`, `Except`, `ChoiceResult.raised`).
-/

/-- Result of a `subprocess.run` call: the exit code and the captured
standard output. -/
structure RunResult where
  returncode : Int
  stdout : String
deriving Repr, DecidableEq

/-- Python exceptions the program can raise but never catches:
`FileNotFoundError` from `subprocess.run` when the executable to run does
not exist, and `EOFError` from `input()` at end of input. -/
inductive PyError where
  | fileNotFoundError
  | eofError
deriving Repr, DecidableEq

/-- What a filesystem name is: a regular file, a directory, a symbolic
link to a further kind, or something else (device, broken link, ...). -/
inductive FileKind where
  | file
  | dir
  | symlinkTo (k : FileKind)
  | other
deriving Repr, DecidableEq

/-- Python `Path.is_dir()` follows symbolic links: it is true exactly when
the kind ultimately resolves to a directory. -/
def resolvesToDir : FileKind → Bool
  | .dir => true
  | .symlinkTo k => resolvesToDir k
  | _ => false

/-- One immediate child of a directory, as yielded by `Path.iterdir()`.
The order of a listing is the directory-iteration order. -/
structure DirEntry where
  name : String
  kind : FileKind
deriving Repr, DecidableEq

/-- The event a single `input()` call observes: a line of text, end of
input (which makes `input()` raise `EOFError`), or a terminal interrupt
(which makes it raise `KeyboardInterrupt`). -/
inductive InputEvent where
  | line (s : String)
  | eof
  | interrupt
deriving Repr, DecidableEq

/-- The environment one run of the program sees: the platform test
`sys.platform == "win32"`, the home directory, the filesystem probes
`Path.exists` / `Path.is_dir`, the subprocess runner (`none` models the
command's executable being absent, in which case `subprocess.run` raises
`FileNotFoundError`), the directory listing, and the standard-input
event at the single prompt. -/
structure Env where
  isWin32 : Bool
  home : String
  pathExists : String → Bool
  pathIsDir : String → Bool
  runProc : List String → Option RunResult
  listing : String → List DirEntry
  input : InputEvent

/-- ASCII whitespace as recognised by Python `str.strip()`.  The model
covers the ASCII range; Unicode whitespace beyond it is not modelled. -/
def isPyWhitespace (c : Char) : Bool :=
  c = ' ' || c = '\t' || c = '\n' || c = '\x0b' || c = '\x0c' || c = '\r'

/-- Python `str.strip()`: remove leading and trailing whitespace. -/
def pyStrip (s : String) : String :=
  String.mk (((s.toList.dropWhile isPyWhitespace).reverse.dropWhile isPyWhitespace).reverse)

/-- Python `s.split("\n")[0]`: everything before the first newline. -/
def firstLine (s : String) : String :=
  (s.splitOn "\n").headD ""

/-- Digit-run validity for Python `int()` after the optional sign: one or
more decimal digits with single underscores allowed only between digits
(PEP 515).  The second argument records whether the previous character
was a digit, so that an underscore may follow it. -/
def udigitsOk : List Char → Bool → Bool
  | [], prevDigit => prevDigit
  | '_' :: cs, prevDigit => prevDigit && udigitsOk cs false
  | c :: cs, _ => c.isDigit && udigitsOk cs true

/-- Numeric value of a digit run, ignoring the underscore separators. -/
def digitsValue (cs : List Char) : Nat :=
  (cs.filter (fun c => c ≠ '_')).foldl (fun a c => a * 10 + (c.toNat - 48)) 0

/-- Sign handling of Python `int()`: an optional leading `+` or `-`
followed by a valid digit run. -/
def pyIntOfChars : List Char → Option Int
  | '+' :: rest => if udigitsOk rest false then some ((digitsValue rest : Nat) : Int) else none
  | '-' :: rest => if udigitsOk rest false then some (-((digitsValue rest : Nat) : Int)) else none
  | cs => if udigitsOk cs false then some ((digitsValue cs : Nat) : Int) else none

/-- Python `int(str)`: strips surrounding whitespace, then parses an
optional sign and decimal digits with underscore group separators
(PEP 515).  Returns `none` where `int()` raises `ValueError`.  Decimal
digits outside the ASCII range are not modelled. -/
def pyInt (s : String) : Option Int :=
  pyIntOfChars (pyStrip s).toList

/-- Windows probe list of `find_prism_exe` (source lines 12-16). -/
def winPrismPaths (home : String) : List String :=
  [ home ++ "/AppData/Local/Programs/PrismLauncher/prismlauncher.exe"
  , "C:/Program Files/PrismLauncher/prismlauncher.exe"
  , "C:/Program Files (x86)/PrismLauncher/prismlauncher.exe" ]

/-- Non-Windows probe list of `find_prism_exe` (source lines 19-25). -/
def linuxPrismPaths (home : String) : List String :=
  [ "/usr/bin/prismlauncher"
  , "/usr/local/bin/prismlauncher"
  , home ++ "/.local/bin/prismlauncher"
  , "/var/lib/flatpak/exports/bin/org.prismlauncher.PrismLauncher"
  , home ++ "/.local/share/flatpak/exports/bin/org.prismlauncher.PrismLauncher" ]

/-- The `possible_paths` list `find_prism_exe` builds for the current
platform (source lines 11-25). -/
def prismProbePaths (env : Env) : List String :=
  if env.isWin32 then winPrismPaths env.home else linuxPrismPaths env.home

/-- Source `find_prism_exe` (lines 7-48): first existing path of the probe
list; else `where`/`which` on the binary name; else `flatpak info
--show-location` and a probe of `<location>/files/bin/prismlauncher`.
`subprocess.run` with an absent executable raises `FileNotFoundError`,
which this function does not catch, hence the `Except`. -/
def find_prism_exe (env : Env) : Except PyError (Option String) :=
  match (prismProbePaths env).find? env.pathExists with
  | some path => .ok (some path)
  | none =>
    let binary_name := if env.isWin32 then "prismlauncher.exe" else "prismlauncher"
    let tool := if env.isWin32 then "where" else "which"
    match env.runProc [tool, binary_name] with
    | none => .error .fileNotFoundError
    | some result =>
      if result.returncode = 0 ∧ pyStrip result.stdout ≠ "" then
        .ok (some (firstLine (pyStrip result.stdout)))
      else
        match env.runProc ["flatpak", "info", "--show-location", "org.prismlauncher.PrismLauncher"] with
        | none => .error .fileNotFoundError
        | some r2 =>
          if r2.returncode = 0 then
            let flatpak_bin := pyStrip r2.stdout ++ "/files/bin/prismlauncher"
            if env.pathExists flatpak_bin then .ok (some flatpak_bin) else .ok none
          else
            .ok none

/-- Probe list of `find_instances_dir` (source lines 53-64). -/
def instancesDirPaths (home : String) : List String :=
  [ home ++ "/AppData/Roaming/PrismLauncher/instances"
  , home ++ "/.local/share/PrismLauncher/instances"
  , home ++ "/Library/Application Support/PrismLauncher/instances"
  , home ++ "/.var/app/org.prismlauncher.PrismLauncher/data/PrismLauncher/instances"
  , "/var/lib/flatpak/app/org.prismlauncher.PrismLauncher/data/PrismLauncher/instances" ]

/-- Source `find_instances_dir` (lines 51-70): the first candidate with
`path.exists() and path.is_dir()`, else `None`. -/
def find_instances_dir (env : Env) : Option String :=
  (instancesDirPaths env.home).find? (fun p => env.pathExists p && env.pathIsDir p)

/-- Source `get_instances` (lines 73-75): names of the children of the
instances directory that `is_dir()` accepts, in iteration order. -/
def get_instances (listing : List DirEntry) : List String :=
  (listing.filter (fun d => resolvesToDir d.kind)).map (fun d => d.name)

/-- The 50-dash separator row printed by `display_instances`. -/
def sepDashes : String := String.mk (List.replicate 50 '-')

/-- The `for i, inst in enumerate(instances, 1)` loop body of
`display_instances`: line `i` is the 1-based index, a dot, a space, and
the name. -/
def numberedFrom (i : Nat) : List String → List String
  | [] => []
  | inst :: rest => (toString i ++ ". " ++ inst) :: numberedFrom (i + 1) rest

/-- Source `display_instances` (lines 78-85), as the list of strings
passed to `print`, in order. -/
def display_instances (instances : List String) : List String :=
  [ "Available Minecraft Instances (" ++ toString instances.length ++ "):"
  , sepDashes ]
  ++ numberedFrom 1 instances
  ++ [ sepDashes
     , "Total: " ++ toString instances.length ++ " instances" ]

/-- Outcome of `get_user_choice`: a normal return carrying the optional
selection and the printed lines, a `sys.exit` with a code, or an uncaught
exception escaping the function. -/
inductive ChoiceResult where
  | ret (sel : Option String) (printed : List String)
  | exited (code : Nat) (printed : List String)
  | raised (e : PyError) (printed : List String)
deriving Repr, DecidableEq

/-- Source `get_user_choice` (lines 88-100).  A line is stripped and
parsed with `int`; a `ValueError` prints the invalid-input message and
falls through to `return None`; an in-range 1-based index returns the
element; `KeyboardInterrupt` prints and exits with code 0.  `EOFError`
from `input()` is not caught, so it escapes as `raised`. -/
def get_user_choice (instances : List String) (ev : InputEvent) : ChoiceResult :=
  match ev with
  | .interrupt => .exited 0 ["\nExiting..."]
  | .eof => .raised .eofError []
  | .line s =>
    let choice := pyStrip s
    match pyInt choice with
    | none => .ret none ["Invalid input. Please enter a number."]
    | some n =>
      let idx : Int := n - 1
      if 0 ≤ idx ∧ idx < (instances.length : Int) then
        .ret (instances.get? idx.toNat) []
      else
        .ret none []

/-- Effects of `launch_instance`: the printed lines and the argv of the
spawned child, in that order (the print happens before the spawn). -/
structure LaunchEffect where
  printed : List String
  argv : List String
deriving Repr, DecidableEq

/-- Source `launch_instance` (lines 103-106): print the launching notice,
then `subprocess.Popen([str(prism_exe), "--launch", instance_name])`. -/
def launch_instance (prism_exe : String) (instance_name : String) : LaunchEffect :=
  { printed := ["Launching " ++ instance_name ++ "..."]
  , argv := [prism_exe, "--launch", instance_name] }

/-- An observable step of `main`: a `print` call, a call into one of the
two locator functions, or the spawn of the child process. -/
inductive Event where
  | printed (s : String)
  | calledFindPrism
  | calledFindInstancesDir
  | spawned (argv : List String)
deriving Repr, DecidableEq

/-- How the process ends: a normal exit with a code, or a crash from an
uncaught exception (the interpreter then exits with a nonzero code and a
traceback). -/
inductive MainOutcome where
  | exit (code : Nat)
  | crashed (e : PyError)
deriving Repr, DecidableEq

/-- A whole run of `main`: its ordered event trace and its outcome. -/
structure MainRun where
  events : List Event
  outcome : MainOutcome
deriving Repr, DecidableEq

/-- The 50-equals banner row printed by `main`. -/
def sepEquals : String := String.mk (List.replicate 50 '=')

/-- Source `main` (lines 109-136), with the exact statement order of the
source: the banner, then `find_prism_exe()` (line 113), then
`find_instances_dir()` (line 114), then the two discovery checks in that
order, enumeration, display, choice, and the conditional launch.  An
exception raised by a callee propagates and crashes the run at that
point. -/
def main (env : Env) : MainRun :=
  let e0 : List Event :=
    [ .printed "PrismLauncher Instance Selector", .printed sepEquals, .calledFindPrism ]
  match find_prism_exe env with
  | .error err => { events := e0, outcome := .crashed err }
  | .ok prism_exe =>
    let e1 := e0 ++ [Event.calledFindInstancesDir]
    let instances_dir := find_instances_dir env
    match prism_exe with
    | none =>
      { events := e1 ++ [.printed "Error: Could not find PrismLauncher executable."]
      , outcome := .exit 0 }
    | some pe =>
      match instances_dir with
      | none =>
        { events := e1 ++ [.printed "Error: Could not find instances directory."]
        , outcome := .exit 0 }
      | some idir =>
        let e2 := e1 ++
          [ Event.printed ("Found PrismLauncher at: " ++ pe)
          , Event.printed ("Found instances at: " ++ idir ++ "\n") ]
        let instances := get_instances (env.listing idir)
        if instances.isEmpty then
          { events := e2 ++ [.printed "No instances found."], outcome := .exit 0 }
        else
          let e3 := e2 ++ (display_instances instances).map Event.printed
          match get_user_choice instances env.input with
          | .exited c out =>
            { events := e3 ++ out.map Event.printed, outcome := .exit c }
          | .raised err out =>
            { events := e3 ++ out.map Event.printed, outcome := .crashed err }
          | .ret sel out =>
            let e4 := e3 ++ out.map Event.printed
            match sel with
            | some chosen =>
              let le := launch_instance pe chosen
              { events := e4 ++ le.printed.map Event.printed ++ [.spawned le.argv]
              , outcome := .exit 0 }
            | none =>
              { events := e4, outcome := .exit 0 }

/-- Instrumentation of the `for path in possible_paths` probe loops
(source lines 28-30 and 66-68): the ordered list of candidates the loop
evaluates its test on.  The loop returns at the first success, so the
consulted list ends there. -/
def probesConsulted (test : String → Bool) : List String → List String
  | [] => []
  | p :: ps => if test p then [p] else p :: probesConsulted test ps

/-- Declared from the spec's words for comparison (claim about input
validation): a signed decimal integer is an optional sign followed by
one or more decimal digits, and nothing else. -/
def isSignedDecimalInteger (s : String) : Bool :=
  match s.toList with
  | '+' :: cs => !cs.isEmpty && cs.all Char.isDigit
  | '-' :: cs => !cs.isEmpty && cs.all Char.isDigit
  | cs => !cs.isEmpty && cs.all Char.isDigit

/-- A ten-element instance list, so index 10 is in range. -/
def instancesTen : List String :=
  ["A", "B", "C", "D", "E", "F", "G", "H", "I", "J"]

/-- A directory listing mixing directories, a regular file, a symlink to
a directory, a symlink to a file, and a hidden directory. -/
def listingSample : List DirEntry :=
  [ ⟨".hidden", .dir⟩
  , ⟨"notes.txt", .file⟩
  , ⟨"LinkWorld", .symlinkTo .dir⟩
  , ⟨"Vanilla-1.20", .dir⟩
  , ⟨"broken", .symlinkTo .file⟩ ]

/-- A healthy non-Windows environment: launcher at /usr/bin, instances
directory in XDG data home holding one instance, with the given input
event at the prompt. -/
def baseEnv (ev : InputEvent) : Env :=
  { isWin32 := false
  , home := "/home/user"
  , pathExists := fun p =>
      p == "/usr/bin/prismlauncher" || p == "/home/user/.local/share/PrismLauncher/instances"
  , pathIsDir := fun p => p == "/home/user/.local/share/PrismLauncher/instances"
  , runProc := fun _ => some ⟨1, ""⟩
  , listing := fun p =>
      if p == "/home/user/.local/share/PrismLauncher/instances" then
        [⟨"Vanilla-1.20", FileKind.dir⟩]
      else []
  , input := ev }

/-- Environment in which neither the launcher nor the instances directory
exists anywhere, and both helper commands run but report failure. -/
def envLocFail : Env :=
  { baseEnv (.line "1") with pathExists := fun _ => false, pathIsDir := fun _ => false }

/-- Environment with an existing but empty instances directory. -/
def envEmpty : Env :=
  { baseEnv (.line "1") with listing := fun _ => [] }

/-- A non-Windows environment where no probe path exists, `which` runs
but finds nothing, and the `flatpak` executable itself is absent (its
`runProc` entry is `none`, so `subprocess.run` raises
`FileNotFoundError`). -/
def envFlatpakMissing : Env :=
  { isWin32 := false
  , home := "/home/user"
  , pathExists := fun _ => false
  , pathIsDir := fun _ => false
  , runProc := fun cmd => if cmd.headD "" == "which" then some ⟨1, ""⟩ else none
  , listing := fun _ => []
  , input := .line "1" }

/-- Same failing-locator situation as `envFlatpakMissing`, kept separate
for the driver-level analysis of the locator call order. -/
def envNoFlatpakLocator : Env :=
  { isWin32 := false
  , home := "/home/user"
  , pathExists := fun _ => false
  , pathIsDir := fun _ => false
  , runProc := fun cmd => if cmd.headD "" == "which" then some ⟨1, ""⟩ else none
  , listing := fun _ => []
  , input := .line "1" }

/-- Environment where both locators fail but every helper command runs
(no exception is raised anywhere). -/
def envBothMissing : Env :=
  { isWin32 := false
  , home := "/home/user"
  , pathExists := fun _ => false
  , pathIsDir := fun _ => false
  , runProc := fun _ => some ⟨1, ""⟩
  , listing := fun _ => []
  , input := .line "1" }

/-- Environment where the first candidate of the instances-directory
probe list exists but is a regular file, and the second exists and is a
directory. -/
def envFileAtFirstInstancesPath : Env :=
  { isWin32 := false
  , home := "/home/user"
  , pathExists := fun p =>
      p == "/home/user/AppData/Roaming/PrismLauncher/instances" ||
      p == "/home/user/.local/share/PrismLauncher/instances"
  , pathIsDir := fun p => p == "/home/user/.local/share/PrismLauncher/instances"
  , runProc := fun _ => some ⟨1, ""⟩
  , listing := fun _ => []
  , input := .line "1" }

/-- Environment where the very first candidate of each probe list is
accepted by its loop. -/
def envProbesHit : Env :=
  { isWin32 := false
  , home := "/home/user"
  , pathExists := fun p =>
      p == "/usr/bin/prismlauncher" || p == "/home/user/AppData/Roaming/PrismLauncher/instances"
  , pathIsDir := fun p => p == "/home/user/AppData/Roaming/PrismLauncher/instances"
  , runProc := fun _ => some ⟨1, ""⟩
  , listing := fun _ => []
  , input := .line "1" }

/-! Theorems. -/

/-- C1: the claim says end-of-input at the prompt makes `get_user_choice`
return no selection and the run end normally.  The code instead lets the
`EOFError` raised by `input()` escape: the `except` clauses cover only
`ValueError` and `KeyboardInterrupt`, so the exception is uncaught and
the process crashes.  This theorem evaluates the code at the failing
input. -/
theorem c1_eof_uncaught :
    get_user_choice ["Vanilla-1.20"] InputEvent.eof =
      ChoiceResult.raised PyError.eofError [] := rfl

/-- C2: the claim says that with `flatpak` absent `find_prism_exe`
treats the probe as not-found and returns `None`.  The code instead
calls `subprocess.run(["flatpak", ...])` with no exception handler, and
`subprocess.run` raises `FileNotFoundError` when its executable does not
exist, so the selector crashes.  This theorem evaluates the code in an
environment with no probe hit, a failing `which`, and no `flatpak`
binary. -/
theorem c2_flatpak_missing_raises :
    find_prism_exe envFlatpakMissing = Except.error PyError.fileNotFoundError := rfl

/-- C3 counterexample: the stripped line "1_0" is not a signed decimal
integer (it contains an underscore), yet Python's `int` accepts it as 10
(PEP 515 group separators), so on a ten-element list `get_user_choice`
returns the tenth element and prints nothing, contradicting the claimed
invalid-input message and empty selection. -/
theorem c3_counterexample :
    isSignedDecimalInteger (pyStrip "1_0") = false ∧
    get_user_choice instancesTen (InputEvent.line "1_0") =
      ChoiceResult.ret (some "J") [] :=
  ⟨rfl, rfl⟩

/-- C3 (amended): for every input line whose stripped form is rejected by
Python's `int` (optional sign, then decimal digits possibly separated by
single underscores), `get_user_choice` prints exactly
"Invalid input. Please enter a number." and returns no selection. -/
theorem c3_invalid_input (L : List String) (s : String)
    (h : pyInt (pyStrip s) = none) :
    get_user_choice L (InputEvent.line s) =
      ChoiceResult.ret none ["Invalid input. Please enter a number."] := by
  simp only [get_user_choice]
  rw [h]

/-- Witness for the amended C3 at the concrete line "abc". -/
theorem c3_invalid_input_witness :
    pyInt (pyStrip "abc") = none ∧
    get_user_choice ["Vanilla-1.20"] (InputEvent.line "abc") =
      ChoiceResult.ret none ["Invalid input. Please enter a number."] :=
  ⟨rfl, c3_invalid_input ["Vanilla-1.20"] "abc" rfl⟩

/-- C6: for every executable path and selected instance name,
`launch_instance` prints exactly the launching notice and spawns the
child with argv of exactly three entries: the executable, the literal
"--launch", and the name, with no further arguments and no shell string
concatenation. -/
theorem c6_launch_invocation (exe s : String) :
    (launch_instance exe s).printed = ["Launching " ++ s ++ "..."] ∧
    (launch_instance exe s).argv.length = 3 ∧
    (launch_instance exe s).argv.get? 0 = some exe ∧
    (launch_instance exe s).argv.get? 1 = some "--launch" ∧
    (launch_instance exe s).argv.get? 2 = some s :=
  ⟨rfl, rfl, rfl, rfl, rfl⟩

/-- C4: the claim says the exit code is 0 on every normal path, listing
locator failure, empty list, invalid and out-of-range selection,
interrupt, end-of-input, and successful launch.  The code does exit 0 on
all of them except end-of-input, where the uncaught `EOFError` crashes
the interpreter (nonzero exit).  Each conjunct evaluates a full run of
`main` on one path. -/
theorem c4_exit_codes :
    (main envLocFail).outcome = MainOutcome.exit 0 ∧
    (main envEmpty).outcome = MainOutcome.exit 0 ∧
    (main (baseEnv (InputEvent.line "abc"))).outcome = MainOutcome.exit 0 ∧
    (main (baseEnv (InputEvent.line "0"))).outcome = MainOutcome.exit 0 ∧
    (main (baseEnv InputEvent.interrupt)).outcome = MainOutcome.exit 0 ∧
    (main (baseEnv (InputEvent.line "1"))).outcome = MainOutcome.exit 0 ∧
    (main (baseEnv InputEvent.eof)).outcome = MainOutcome.crashed PyError.eofError :=
  ⟨rfl, rfl, rfl, rfl, rfl, rfl, rfl⟩

/-- C5: for every instance list and input line whose stripped form the
integer parser accepts as n, `get_user_choice` returns element n-1 of
the list (1-based indexing) when 1 ≤ n ≤ N, and returns no selection
with no printed message when n is out of that range. -/
theorem c5_range_selection (L : List String) (s : String) (n : Int)
    (h : pyInt (pyStrip s) = some n) :
    (1 ≤ n ∧ n ≤ (L.length : Int) →
      get_user_choice L (InputEvent.line s) =
        ChoiceResult.ret (some (L.getD (n - 1).toNat "")) []) ∧
    (¬ (1 ≤ n ∧ n ≤ (L.length : Int)) →
      get_user_choice L (InputEvent.line s) = ChoiceResult.ret none []) := by
  constructor
  · intro hr
    have h0 : (0 : Int) ≤ n - 1 := by omega
    have h1 : n - 1 < (L.length : Int) := by omega
    have hlt : (n - 1).toNat < L.length := by omega
    simp only [get_user_choice, h]
    rw [if_pos ⟨h0, h1⟩, List.get?_eq_get hlt]
    have hlt2 : n.toNat - 1 < L.length := by omega
    simp [List.getD_eq_getElem?_getD, List.getElem?_eq_getElem hlt2]
  · intro hr
    simp only [get_user_choice, h]
    rw [if_neg]
    omega

/-- Witness for C5 at the boundary scenario: three instances and the
whitespace-surrounded line " 2 " select "Beta". -/
theorem c5_range_selection_witness :
    pyInt (pyStrip " 2 ") = some 2 ∧
    get_user_choice ["Alpha", "Beta", "Gamma"] (InputEvent.line " 2 ") =
      ChoiceResult.ret (some "Beta") [] := by
  refine ⟨rfl, ?_⟩
  have h := (c5_range_selection ["Alpha", "Beta", "Gamma"] " 2 " 2 rfl).1 (by decide)
  exact h

/-- C7: for every directory listing, `get_instances` returns names in
iteration order (a sublist of the listing's names), exactly one name per
entry whose kind resolves to a directory; plain directories are
included, symlinks resolving to directories are included (hidden names
get no special treatment: inclusion depends only on the kind), and every
returned name comes from an entry resolving to a directory, so regular
files and symlinks not reaching a directory contribute nothing. -/
theorem c7_enumeration (l : List DirEntry) :
    (get_instances l).Sublist (l.map DirEntry.name) ∧
    (get_instances l).length = l.countP (fun e => resolvesToDir e.kind) ∧
    (∀ e : DirEntry, e ∈ l → e.kind = FileKind.dir → e.name ∈ get_instances l) ∧
    (∀ (e : DirEntry) (k : FileKind), e ∈ l → e.kind = FileKind.symlinkTo k →
      resolvesToDir k = true → e.name ∈ get_instances l) ∧
    (∀ s : String, s ∈ get_instances l →
      ∃ e : DirEntry, e ∈ l ∧ e.name = s ∧ resolvesToDir e.kind = true) := by
  refine ⟨?_, ?_, ?_, ?_, ?_⟩
  · exact (List.filter_sublist l).map DirEntry.name
  · simp [get_instances, List.countP_eq_length_filter]
  · intro e he hk
    simp only [get_instances, List.mem_map]
    exact ⟨e, List.mem_filter.mpr ⟨he, by simp [hk, resolvesToDir]⟩, rfl⟩
  · intro e k he hk hres
    simp only [get_instances, List.mem_map]
    refine ⟨e, List.mem_filter.mpr ⟨he, ?_⟩, rfl⟩
    simp [hk, resolvesToDir, hres]
  · intro s hs
    simp only [get_instances, List.mem_map] at hs
    obtain ⟨e, hef, hname⟩ := hs
    exact ⟨e, (List.mem_filter.mp hef).1, hname, (List.mem_filter.mp hef).2⟩

/-- Witness for C7 on a sample listing: the hidden directory and the
directory symlink are enumerated, and every enumerated name stems from a
directory-resolving entry. -/
theorem c7_enumeration_witness :
    ".hidden" ∈ get_instances listingSample ∧
    "LinkWorld" ∈ get_instances listingSample ∧
    (∃ e : DirEntry, e ∈ listingSample ∧ e.name = "Vanilla-1.20" ∧
      resolvesToDir e.kind = true) := by
  refine ⟨?_, ?_, ?_⟩
  · exact (c7_enumeration listingSample).2.2.1 ⟨".hidden", FileKind.dir⟩ (by decide) rfl
  · exact (c7_enumeration listingSample).2.2.2.1 ⟨"LinkWorld", FileKind.symlinkTo FileKind.dir⟩
      FileKind.dir (by decide) rfl rfl
  · exact (c7_enumeration listingSample).2.2.2.2 "Vanilla-1.20" (by decide)

/-- A probe loop that finds a hit consults exactly the failing candidates
before the hit and then the hit itself, and nothing after it. -/
theorem probesConsulted_eq (test : String → Bool) (l : List String) (p : String)
    (h : l.find? test = some p) :
    probesConsulted test l = l.takeWhile (fun q => !(test q)) ++ [p] := by
  induction l with
  | nil => simp at h
  | cons a as ih =>
    by_cases ha : test a = true
    · rw [List.find?_cons_of_pos as ha] at h
      cases h
      simp [probesConsulted, List.takeWhile_cons, ha]
    · rw [List.find?_cons_of_neg as ha] at h
      simp only [probesConsulted, List.takeWhile_cons]
      rw [if_neg ha, ih h]
      simp [Bool.not_eq_true] at ha
      simp [ha]

/-- C8 counterexample: in `envFileAtFirstInstancesPath` the first
existing candidate of the instances-directory probe list is the roaming
path, which exists but is a regular file; `find_instances_dir` does not
return it — it skips ahead and returns the second candidate, and the
loop consults a candidate situated after the first existing one. -/
theorem c8_counterexample :
    (instancesDirPaths envFileAtFirstInstancesPath.home).find?
        envFileAtFirstInstancesPath.pathExists
      = some "/home/user/AppData/Roaming/PrismLauncher/instances" ∧
    find_instances_dir envFileAtFirstInstancesPath
      = some "/home/user/.local/share/PrismLauncher/instances" ∧
    find_instances_dir envFileAtFirstInstancesPath
      ≠ some "/home/user/AppData/Roaming/PrismLauncher/instances" ∧
    "/home/user/.local/share/PrismLauncher/instances" ∈
      probesConsulted
        (fun q => envFileAtFirstInstancesPath.pathExists q &&
          envFileAtFirstInstancesPath.pathIsDir q)
        (instancesDirPaths envFileAtFirstInstancesPath.home) := by
  refine ⟨rfl, rfl, ?_, ?_⟩
  · decide
  · decide

/-- C8 (amended): `find_prism_exe` returns the first candidate of its
probe list that exists; `find_instances_dir` returns the first candidate
that exists and is a directory.  In each loop the earlier candidates
that fail the loop's test do not affect the result, and no candidate
after the first accepted one is ever consulted: the consulted candidates
are exactly the failing prefix followed by the hit. -/
theorem c8_first_match (env : Env) (p q : String)
    (hp : (prismProbePaths env).find? env.pathExists = some p)
    (hq : (instancesDirPaths env.home).find?
      (fun r => env.pathExists r && env.pathIsDir r) = some q) :
    find_prism_exe env = Except.ok (some p) ∧
    find_instances_dir env = some q ∧
    probesConsulted env.pathExists (prismProbePaths env)
      = (prismProbePaths env).takeWhile (fun r => !(env.pathExists r)) ++ [p] ∧
    probesConsulted (fun r => env.pathExists r && env.pathIsDir r)
        (instancesDirPaths env.home)
      = (instancesDirPaths env.home).takeWhile
          (fun r => !(env.pathExists r && env.pathIsDir r)) ++ [q] := by
  refine ⟨?_, ?_, probesConsulted_eq _ _ _ hp, probesConsulted_eq _ _ _ hq⟩
  · simp only [find_prism_exe, hp]
  · simp only [find_instances_dir, hq]

/-- Witness for the amended C8: both probe loops accept their first
candidate in `envProbesHit`. -/
theorem c8_first_match_witness :
    find_prism_exe envProbesHit = Except.ok (some "/usr/bin/prismlauncher") ∧
    find_instances_dir envProbesHit
      = some "/home/user/AppData/Roaming/PrismLauncher/instances" :=
  ⟨(c8_first_match envProbesHit "/usr/bin/prismlauncher"
      "/home/user/AppData/Roaming/PrismLauncher/instances" rfl rfl).1,
   (c8_first_match envProbesHit "/usr/bin/prismlauncher"
      "/home/user/AppData/Roaming/PrismLauncher/instances" rfl rfl).2.1⟩

/-- Every numbered line produced by the enumerate-from-1 loop: line i
(0-based) is the decimal rendering of i+k, a dot, a space, and the i-th
name. -/
theorem numberedFrom_get? (l : List String) (k i : Nat) (h : i < l.length) :
    (numberedFrom k l).get? i = some (toString (k + i) ++ ". " ++ l.getD i "") := by
  induction l generalizing k i with
  | nil => simp at h
  | cons a as ih =>
    cases i with
    | zero => simp [numberedFrom]
    | succ j =>
      have hj : j < as.length := by simpa using h
      have := ih (k + 1) j hj
      simp only [numberedFrom, List.get?, List.getD_cons_succ]
      rw [this]
      have harith : k + 1 + j = k + (j + 1) := by omega
      rw [harith]

/-- The numbered body has one line per instance. -/
theorem numberedFrom_length (k : Nat) (l : List String) :
    (numberedFrom k l).length = l.length := by
  induction l generalizing k with
  | nil => rfl
  | cons a as ih => simp [numberedFrom, ih]

/-- C9: for every instance list of length N, `display_instances` prints
N+4 lines: the header naming N, a separator of exactly 50 dashes, for
each 1-based index the line made of the index, ". ", and the
corresponding name, a second identical separator, and the
"Total: N instances" footer. -/
theorem c9_display (L : List String) (i : Nat) (h : i < L.length) :
    (display_instances L).length = L.length + 4 ∧
    (display_instances L).get? 0
      = some ("Available Minecraft Instances (" ++ toString L.length ++ "):") ∧
    (display_instances L).get? 1 = some (String.mk (List.replicate 50 '-')) ∧
    (display_instances L).get? (i + 2)
      = some (toString (i + 1) ++ ". " ++ L.getD i "") ∧
    (display_instances L).get? (L.length + 2)
      = some (String.mk (List.replicate 50 '-')) ∧
    (display_instances L).get? (L.length + 3)
      = some ("Total: " ++ toString L.length ++ " instances") := by
  refine ⟨?_, rfl, rfl, ?_, ?_, ?_⟩
  · simp [display_instances, numberedFrom_length]
  · show (numberedFrom 1 L ++ [sepDashes, "Total: " ++ toString L.length ++ " instances"]).get? i
      = some (toString (i + 1) ++ ". " ++ L.getD i "")
    rw [List.get?_append (by rw [numberedFrom_length]; exact h)]
    rw [numberedFrom_get? L 1 i h, Nat.add_comm 1 i]
  · show (numberedFrom 1 L ++ [sepDashes, "Total: " ++ toString L.length ++ " instances"]).get? L.length
      = some sepDashes
    rw [List.get?_append_right (by rw [numberedFrom_length])]
    simp [numberedFrom_length]
  · show (numberedFrom 1 L ++ [sepDashes, "Total: " ++ toString L.length ++ " instances"]).get? (L.length + 1)
      = some ("Total: " ++ toString L.length ++ " instances")
    rw [List.get?_append_right (by rw [numberedFrom_length]; omega)]
    simp [numberedFrom_length]

/-- Witness for C9 on the two-element list: the header, separators,
second numbered line, and footer are the expected literal strings. -/
theorem c9_display_witness :
    (display_instances ["Alpha", "Beta"]).length = 6 ∧
    (display_instances ["Alpha", "Beta"]).get? 3 = some "2. Beta" := by
  have h := c9_display ["Alpha", "Beta"] 1 (by decide)
  exact ⟨h.1, h.2.2.2.1⟩

/-- C10 counterexample: in `envNoFlatpakLocator` the executable locator
itself crashes (absent `flatpak` binary), so `main` never calls
`find_instances_dir` — the instances-directory probes do not always
execute — and no discovery-failure message is printed either. -/
theorem c10_counterexample :
    (main envNoFlatpakLocator).outcome = MainOutcome.crashed PyError.fileNotFoundError ∧
    Event.calledFindInstancesDir ∉ (main envNoFlatpakLocator).events ∧
    Event.printed "Error: Could not find PrismLauncher executable."
      ∉ (main envNoFlatpakLocator).events := by
  refine ⟨rfl, ?_, ?_⟩
  · decide
  · decide

/-- C10 (amended): on every run in which `find_prism_exe` completes
without raising, `main` has invoked both `find_prism_exe` and
`find_instances_dir`; and when both discoveries fail, the trace is the
banner, the two locator calls, and then only the executable error
message — the instances-directory message is never printed, and the run
exits normally. -/
theorem c10_locator_order (env : Env) (r : Option String)
    (h : find_prism_exe env = Except.ok r) :
    Event.calledFindPrism ∈ (main env).events ∧
    Event.calledFindInstancesDir ∈ (main env).events ∧
    (r = none → find_instances_dir env = none →
      (main env).events =
        [ Event.printed "PrismLauncher Instance Selector"
        , Event.printed sepEquals
        , Event.calledFindPrism
        , Event.calledFindInstancesDir
        , Event.printed "Error: Could not find PrismLauncher executable." ] ∧
      (main env).outcome = MainOutcome.exit 0 ∧
      Event.printed "Error: Could not find instances directory."
        ∉ (main env).events) := by
  cases r with
  | none =>
    have hm : main env =
        { events :=
            [ Event.printed "PrismLauncher Instance Selector"
            , Event.printed sepEquals
            , Event.calledFindPrism
            , Event.calledFindInstancesDir
            , Event.printed "Error: Could not find PrismLauncher executable." ]
        , outcome := MainOutcome.exit 0 } := by
      simp only [main, h]
      rfl
    rw [hm]
    exact ⟨by simp, by simp, fun _ _ => ⟨rfl, rfl, by decide⟩⟩
  | some pe =>
    refine ⟨?_, ?_, fun hc => absurd hc (Option.some_ne_none pe)⟩
    all_goals
      simp only [main, h]
      cases hfd : find_instances_dir env
      all_goals
        simp only
        repeat' split
      all_goals simp

/-- Witness for the amended C10: with both locators failing but no
command missing, the instances locator is invoked and only the
executable error is printed before a clean exit. -/
theorem c10_locator_order_witness :
    Event.calledFindInstancesDir ∈ (main envBothMissing).events ∧
    (main envBothMissing).events =
      [ Event.printed "PrismLauncher Instance Selector"
      , Event.printed sepEquals
      , Event.calledFindPrism
      , Event.calledFindInstancesDir
      , Event.printed "Error: Could not find PrismLauncher executable." ] ∧
    (main envBothMissing).outcome = MainOutcome.exit 0 := by
  have h := c10_locator_order envBothMissing none rfl
  exact ⟨h.2.1, (h.2.2 rfl rfl).1, (h.2.2 rfl rfl).2.1⟩

end Minecraft
